import Mathlib

/-!
Shallow embedding of `src/unlock_indicator.c` (i3lock unlock-indicator renderer).

The file models the state-to-image composition pipeline: the enums `auth_state_t`
and `unlock_state_t`, the ring/text color tables, the status-text selection, the
failed-attempt counter formatting, the randomized highlight arc, the per-monitor
compositing positions, and the background-pixmap cache of `redraw_screen` /
`free_bg_pixmap`.  Cairo drawing is modelled as building lists of abstract draw
operations; double arithmetic is modelled exactly over ℚ, with angles carried as
pairs (q, p) denoting q + p·π so that π-valued geometry stays executable.
-/

namespace I3lock

/-- Modelled from the spec: `auth_state_t` is declared in `unlock_indicator.h`,
which is not under `src/`.  The spec (§3 "AuthState") lists the five values
`Idle`, `Verifying`, `Locking`, `Wrong`, `LockFailed`; `Idle` is the base
("no authenticator interaction") state, so it carries the numeric value 0 and
all other states are positive — this is what the source's guard
`auth_state > STATE_AUTH_IDLE` (line 171) relies on. -/
inductive auth_state_t : Type
  | STATE_AUTH_IDLE
  | STATE_AUTH_VERIFY
  | STATE_AUTH_LOCK
  | STATE_AUTH_WRONG
  | STATE_I3LOCK_LOCK_FAILED
  deriving DecidableEq, Repr

/-- Numeric value of each `auth_state_t` enumerator (C enum, first value 0). -/
def auth_state_t.toNat : auth_state_t → Nat
  | .STATE_AUTH_IDLE => 0
  | .STATE_AUTH_VERIFY => 1
  | .STATE_AUTH_LOCK => 2
  | .STATE_AUTH_WRONG => 3
  | .STATE_I3LOCK_LOCK_FAILED => 4

/-- Modelled from the spec: `unlock_state_t` is declared in `unlock_indicator.h`,
which is not under `src/`.  The spec (§3 "InputState") lists `Started` ("no
characters buffered, indicator not yet shown"), `NothingToDelete`, `KeyPressed`,
`KeyActive`, `BackspaceActive`, and states the visibility rule "the ring shows
when `InputState != Started` OR `AuthState != Idle`".  `Started` is the default
state, value 0; the source's guard `unlock_state >= STATE_KEY_PRESSED`
(line 171) together with that rule forces `STATE_KEY_PRESSED` to be the least
non-`Started` value, so the encoding is
Started = 0, KeyPressed = 1, KeyActive = 2, BackspaceActive = 3,
NothingToDelete = 4. -/
inductive unlock_state_t : Type
  | STATE_STARTED
  | STATE_KEY_PRESSED
  | STATE_KEY_ACTIVE
  | STATE_BACKSPACE_ACTIVE
  | STATE_NOTHING_TO_DELETE
  deriving DecidableEq, Repr

/-- Numeric value of each `unlock_state_t` enumerator. -/
def unlock_state_t.toNat : unlock_state_t → Nat
  | .STATE_STARTED => 0
  | .STATE_KEY_PRESSED => 1
  | .STATE_KEY_ACTIVE => 2
  | .STATE_BACKSPACE_ACTIVE => 3
  | .STATE_NOTHING_TO_DELETE => 4

/-- An RGB color as the integer byte triple from the nord palette tables
(lines 87-102).  The `NORD(n)` macro passes these to cairo divided by 255.0;
since that map is injective we identify colors by their byte triples. -/
structure RGB : Type where
  r : Nat
  g : Nat
  b : Nat
  deriving DecidableEq, Repr

def nord0 : RGB := ⟨0x2e, 0x34, 0x40⟩
def nord1 : RGB := ⟨0x3b, 0x42, 0x52⟩
def nord2 : RGB := ⟨0x43, 0x4c, 0x5e⟩
def nord3 : RGB := ⟨0x4c, 0x56, 0x6a⟩
def nord4 : RGB := ⟨0xd8, 0xde, 0xe9⟩
def nord5 : RGB := ⟨0xe5, 0xe9, 0xf0⟩
def nord6 : RGB := ⟨0xec, 0xef, 0xf4⟩
def nord7 : RGB := ⟨0x8f, 0xbc, 0xbb⟩
def nord8 : RGB := ⟨0x88, 0xc0, 0xd0⟩
def nord9 : RGB := ⟨0x81, 0xa1, 0xc1⟩
def nord10 : RGB := ⟨0x5e, 0x81, 0xac⟩
def nord11 : RGB := ⟨0xbf, 0x61, 0x6a⟩
def nord12 : RGB := ⟨0xd0, 0x87, 0x70⟩
def nord13 : RGB := ⟨0xeb, 0xcb, 0x8b⟩
def nord14 : RGB := ⟨0xa3, 0xbe, 0x8c⟩
def nord15 : RGB := ⟨0xb4, 0x8e, 0xad⟩

/-- Gate of the whole ring-drawing block, lines 170-171:
`unlock_indicator && (unlock_state >= STATE_KEY_PRESSED || auth_state > STATE_AUTH_IDLE)`. -/
def indicator_shown (unlock_indicator : Bool) (u : unlock_state_t)
    (a : auth_state_t) : Bool :=
  unlock_indicator &&
    (decide (unlock_state_t.STATE_KEY_PRESSED.toNat ≤ u.toNat) ||
     decide (auth_state_t.STATE_AUTH_IDLE.toNat < a.toNat))

/-- Ring stroke color, translated from the `switch (auth_state)` at
lines 189-206.  `STATE_AUTH_VERIFY` falls through into the `STATE_AUTH_LOCK`
case body; `STATE_AUTH_WRONG` falls through into `STATE_I3LOCK_LOCK_FAILED`;
the `STATE_AUTH_IDLE` case tests `unlock_state == STATE_NOTHING_TO_DELETE`
before the default gray.  Every case body ends in `break`. -/
def ring_color (a : auth_state_t) (u : unlock_state_t) : RGB :=
  match a with
  | .STATE_AUTH_VERIFY => nord10
  | .STATE_AUTH_LOCK => nord10
  | .STATE_AUTH_WRONG => nord11
  | .STATE_I3LOCK_LOCK_FAILED => nord11
  | .STATE_AUTH_IDLE =>
      if u = .STATE_NOTHING_TO_DELETE then nord12 else nord3

/-- Follows the spec's words (claim C3): "`Verifying`/`Locking` → accent-blue,
`Wrong`/`LockFailed` → accent-red, `Idle` with `InputState == NothingToDelete`
→ accent-orange, otherwise neutral-gray", where the accents are the nord
palette entries accent-blue = nord10, accent-red = nord11,
accent-orange = nord12, neutral-gray = nord3. -/
def spec_ring_color (a : auth_state_t) (u : unlock_state_t) : RGB :=
  if a = .STATE_AUTH_VERIFY ∨ a = .STATE_AUTH_LOCK then nord10
  else if a = .STATE_AUTH_WRONG ∨ a = .STATE_I3LOCK_LOCK_FAILED then nord11
  else if a = .STATE_AUTH_IDLE ∧ u = .STATE_NOTHING_TO_DELETE then nord12
  else nord3

/-- Pre-text color (lines 227-240): `cairo_set_source_rgb(ctx, NORD(4))` first,
then `switch (auth_state)`: `STATE_AUTH_VERIFY` falls through into
`STATE_AUTH_LOCK` which sets nord9 and breaks; `STATE_AUTH_WRONG` falls
through into `STATE_I3LOCK_LOCK_FAILED` which sets nord11 and then — with no
`break` — falls through into `default`, which overrides with nord12 when
`unlock_state == STATE_NOTHING_TO_DELETE`; plain `default` (only
`STATE_AUTH_IDLE` remains) likewise sets nord12 for `STATE_NOTHING_TO_DELETE`
and otherwise leaves the initial nord4. -/
def text_color_pre (a : auth_state_t) (u : unlock_state_t) : RGB :=
  match a with
  | .STATE_AUTH_VERIFY => nord9
  | .STATE_AUTH_LOCK => nord9
  | .STATE_AUTH_WRONG =>
      if u = .STATE_NOTHING_TO_DELETE then nord12 else nord11
  | .STATE_I3LOCK_LOCK_FAILED =>
      if u = .STATE_NOTHING_TO_DELETE then nord12 else nord11
  | .STATE_AUTH_IDLE =>
      if u = .STATE_NOTHING_TO_DELETE then nord12 else nord4

/-- Model of `snprintf(buf, 4, "%d", n)` (line 265): the decimal representation
of the C `int`, truncated to at most 3 characters (the buffer holds 3 bytes
plus the terminator). -/
def snprintf_buf4 (n : Int) : String :=
  String.mk ((Int.repr n).toList.take 3)

/-- Status text selection, translated from the `switch (auth_state)` at
lines 244-272.  The four non-idle states each set their literal and `break`;
the `default` branch (`STATE_AUTH_IDLE`) first sets "No input" when
`unlock_state == STATE_NOTHING_TO_DELETE`, then — in a second, unconditional
`if` — overwrites `text` with the failed-attempt counter (capped at the
literal "> 999") whenever `show_failed_attempts && failed_attempts > 0`.
`text` starts as `NULL`, modelled as `none`. -/
def status_text (a : auth_state_t) (u : unlock_state_t)
    (show_failed_attempts : Bool) (failed_attempts : Int) : Option String :=
  match a with
  | .STATE_AUTH_VERIFY => some "Verifying…"
  | .STATE_AUTH_LOCK => some "Locking…"
  | .STATE_AUTH_WRONG => some "Wrong!"
  | .STATE_I3LOCK_LOCK_FAILED => some "Lock failed!"
  | .STATE_AUTH_IDLE =>
      let t : Option String :=
        if u = .STATE_NOTHING_TO_DELETE then some "No input" else none
      if show_failed_attempts ∧ failed_attempts > 0 then
        if failed_attempts > 999 then some "> 999"
        else some (snprintf_buf4 failed_attempts)
      else t

/-- Final color the status text is drawn in: the pre-text color from the color
switch, overridden by `cairo_set_source_rgb(ctx, NORD(11))` (line 268) exactly
when the failed-attempt counter branch ran (only reachable in the `default`,
i.e. `STATE_AUTH_IDLE`, case of the text switch). -/
def text_color (a : auth_state_t) (u : unlock_state_t)
    (show_failed_attempts : Bool) (failed_attempts : Int) : RGB :=
  if a = .STATE_AUTH_IDLE ∧ show_failed_attempts ∧ failed_attempts > 0 then
    nord11
  else text_color_pre a u

/-- Follows the amended wording for claim C2 (text selection): `AuthState`
text first; in the `Idle` case the failed-attempt counter (feature enabled and
counter > 0) takes precedence over the "No input" text. -/
def spec_status_text_amended (a : auth_state_t) (u : unlock_state_t)
    (show_failed_attempts : Bool) (failed_attempts : Int) : Option String :=
  if a = .STATE_AUTH_VERIFY then some "Verifying…"
  else if a = .STATE_AUTH_LOCK then some "Locking…"
  else if a = .STATE_AUTH_WRONG then some "Wrong!"
  else if a = .STATE_I3LOCK_LOCK_FAILED then some "Lock failed!"
  else if show_failed_attempts ∧ failed_attempts > 0 then
    some (if failed_attempts > 999 then "> 999"
          else snprintf_buf4 failed_attempts)
  else if u = .STATE_NOTHING_TO_DELETE then some "No input"
  else none

/-- Follows the amended wording for claim C2 (text color): a table parallel to
the ring's but with its own palette entries — `Verifying`/`Locking` → nord9,
`Wrong`/`LockFailed` → nord11 except under `NothingToDelete` where the
fall-through yields nord12, `Idle` with `NothingToDelete` → nord12, otherwise
nord4 — and the failed-attempt counter text always nord11 (accent-red). -/
def spec_text_color_amended (a : auth_state_t) (u : unlock_state_t)
    (show_failed_attempts : Bool) (failed_attempts : Int) : RGB :=
  if a = .STATE_AUTH_IDLE ∧ show_failed_attempts ∧ failed_attempts > 0 then
    nord11
  else if a = .STATE_AUTH_VERIFY ∨ a = .STATE_AUTH_LOCK then nord9
  else if (a = .STATE_AUTH_WRONG ∨ a = .STATE_I3LOCK_LOCK_FAILED)
          ∧ u ≠ .STATE_NOTHING_TO_DELETE then nord11
  else if u = .STATE_NOTHING_TO_DELETE then nord12
  else nord4

/-- C1: assuming the indicator feature is enabled, the ring block is entered
iff `InputState ≠ Started` or `AuthState ≠ Idle`. -/
theorem ring_visibility_iff (u : unlock_state_t) (a : auth_state_t) :
    indicator_shown true u a = true ↔
      (u ≠ .STATE_STARTED ∨ a ≠ .STATE_AUTH_IDLE) := by
  cases u <;> cases a <;> simp [indicator_shown, unlock_state_t.toNat,
    auth_state_t.toNat]

/-- C3: the ring color is a total function of `(AuthState, InputState)` agreeing
everywhere with the spec's table; in particular no enum value inherits another
case's color. -/
theorem ring_color_total (a : auth_state_t) (u : unlock_state_t) :
    ring_color a u = spec_ring_color a u := by
  cases a <;> cases u <;> rfl

/-- Helper: formatting an `int` in `0..999` into the 4-byte buffer loses
nothing — the decimal string has at most 3 characters. -/
lemma snprintf_buf4_eq_repr (f : Int) (h1 : 0 ≤ f) (h2 : f ≤ 999) :
    snprintf_buf4 f = Int.repr f := by
  obtain ⟨n, rfl⟩ := Int.eq_ofNat_of_zero_le h1
  have hn : n ≤ 999 := by exact_mod_cast h2
  have hlen : (Nat.repr n).toList.length ≤ 3 :=
    Nat.repr_length n 3 (by norm_num) (by omega)
  show String.mk ((Nat.repr n).toList.take 3) = Nat.repr n
  rw [List.take_of_length_le hlen]
  rfl

/-- C2 (counterexample): with `AuthState = Idle`, `InputState = NothingToDelete`,
the failed-attempt feature enabled and a counter of 3, the code shows the
counter "3", not the claimed higher-priority "No input"; and already at
`(Verifying, Started)` the text color nord9 differs from the ring color
nord10, contradicting "the text color equals the ring color for the same
state". -/
theorem text_priority_color_counterexample :
    status_text .STATE_AUTH_IDLE .STATE_NOTHING_TO_DELETE true 3 = some "3" ∧
    ("3" : String) ≠ "No input" ∧
    text_color .STATE_AUTH_VERIFY .STATE_STARTED false 0 = nord9 ∧
    ring_color .STATE_AUTH_VERIFY .STATE_STARTED = nord10 ∧
    nord9 ≠ nord10 := by
  refine ⟨?_, by decide, rfl, rfl, by decide⟩
  rfl

/-- C2 (amended): the status text follows the priority `AuthState` text, then
failed-attempt counter, then "No input"; the text color follows its own table
(nord9 / nord11 / nord12 / nord4) with the `Wrong`/`LockFailed` fall-through
override under `NothingToDelete`, and counter text is always nord11. -/
theorem text_selection_amended (a : auth_state_t) (u : unlock_state_t)
    (sf : Bool) (f : Int) :
    status_text a u sf f = spec_status_text_amended a u sf f ∧
    text_color a u sf f = spec_text_color_amended a u sf f := by
  constructor
  · cases a <;> cases u <;> cases sf <;>
      by_cases hp : f > 0 <;> by_cases hq : f > 999 <;>
        simp [status_text, spec_status_text_amended, hp, hq]
  · cases a <;> cases u <;> cases sf <;>
      by_cases hp : f > 0 <;>
        simp [text_color, text_color_pre, spec_text_color_amended, hp]

/-- C5: with the failed-attempt display enabled and no higher-priority text
(`AuthState = Idle`, `InputState ≠ NothingToDelete`): counter 0 shows nothing,
counters 1..999 show exactly their decimal representation, counters above 999
show the fixed literal "> 999". -/
theorem failed_attempt_display (u : unlock_state_t) (f : Int)
    (hu : u ≠ .STATE_NOTHING_TO_DELETE) (hf : 0 ≤ f) :
    (f = 0 → status_text .STATE_AUTH_IDLE u true f = none) ∧
    (1 ≤ f → f ≤ 999 →
      status_text .STATE_AUTH_IDLE u true f = some (Int.repr f)) ∧
    (999 < f → status_text .STATE_AUTH_IDLE u true f = some "> 999") := by
  refine ⟨fun h0 => ?_, fun h1 h2 => ?_, fun h3 => ?_⟩
  · subst h0
    simp [status_text, hu]
  · have hp : f > 0 := by omega
    have hq : ¬f > 999 := by omega
    simp [status_text, hp, hq, snprintf_buf4_eq_repr f (by omega) h2]
  · have hp : f > 0 := by omega
    simp [status_text, hp, h3]

/-- Witness for `failed_attempt_display` at `u = Started`, counter 42. -/
theorem failed_attempt_display_witness :
    unlock_state_t.STATE_STARTED ≠ unlock_state_t.STATE_NOTHING_TO_DELETE ∧
    (0 : Int) ≤ 42 ∧
    (((42 : Int) = 0 →
        status_text .STATE_AUTH_IDLE .STATE_STARTED true 42 = none) ∧
      ((1 : Int) ≤ 42 → (42 : Int) ≤ 999 →
        status_text .STATE_AUTH_IDLE .STATE_STARTED true 42 =
          some (Int.repr 42)) ∧
      ((999 : Int) < 42 →
        status_text .STATE_AUTH_IDLE .STATE_STARTED true 42 = some "> 999")) :=
  ⟨by decide, by decide,
    failed_attempt_display .STATE_STARTED 42 (by decide) (by decide)⟩

/-- C9: under `1 ≤ failed_attempts ≤ 999`, the `snprintf` into `char buf[4]`
does not truncate: the result is the exact decimal representation and fits in
3 characters plus the terminator. -/
theorem snprintf_no_truncation (f : Int) (h1 : 1 ≤ f) (h2 : f ≤ 999) :
    snprintf_buf4 f = Int.repr f ∧ (Int.repr f).length ≤ 3 := by
  refine ⟨snprintf_buf4_eq_repr f (by omega) h2, ?_⟩
  obtain ⟨n, rfl⟩ := Int.eq_ofNat_of_zero_le (by omega : (0:Int) ≤ f)
  exact Nat.repr_length n 3 (by norm_num) (by exact_mod_cast by omega : n < 10 ^ 3)

/-- Witness for `snprintf_no_truncation` at the boundary counter 999. -/
theorem snprintf_no_truncation_witness :
    (1 : Int) ≤ 999 ∧ (999 : Int) ≤ 999 ∧
      (snprintf_buf4 999 = Int.repr 999 ∧ (Int.repr 999).length ≤ 3) :=
  ⟨by decide, by decide, snprintf_no_truncation 999 (by decide) (by decide)⟩

/-! ### Geometry, draw operations and the composition pipeline -/

/-- Logical sizes, lines 26-33 of the source.  `BUTTON_CENTER` and
`BUTTON_SPACE` are both `BUTTON_RADIUS + 5`; `BUTTON_DIAMETER` is
`2 * BUTTON_SPACE`. -/
def BUTTON_RADIUS : ℚ := 90

def BUTTON_CENTER : ℚ := BUTTON_RADIUS + 5

def BUTTON_DIAMETER : Nat := 190

def CLOCK_WIDTH : Nat := 240

def CLOCK_HEIGHT : Nat := 84

def CLOCK_MARGIN : Nat := 24

/-- Physical (DPI-scaled) button diameter, line 119:
`ceil(scaling_factor * BUTTON_DIAMETER)`. -/
def button_diameter_physical (sf : ℚ) : Nat := ⌈sf * (BUTTON_DIAMETER : ℚ)⌉₊

/-- Physical clock width, line 120. -/
def clock_width_physical (sf : ℚ) : Nat := ⌈sf * (CLOCK_WIDTH : ℚ)⌉₊

/-- Physical clock height, line 121. -/
def clock_height_physical (sf : ℚ) : Nat := ⌈sf * (CLOCK_HEIGHT : ℚ)⌉₊

/-- Physical clock margin, line 122. -/
def margin_physical (sf : ℚ) : Nat := ⌈sf * (CLOCK_MARGIN : ℚ)⌉₊

/-- An angle value `q + p·π` with `q p : ℚ`: executable representation of the
double-precision angle expressions of the source, which combine an exact
decimal rational (the reduced `rand()` value over 100) with multiples of
`M_PI`. -/
structure Angle : Type where
  q : ℚ
  p : ℚ
  deriving DecidableEq, Repr

/-- Real value denoted by an `Angle`. -/
noncomputable def Angle.toReal (a : Angle) : ℝ := (a.q : ℝ) + (a.p : ℝ) * Real.pi

/-- Abstract cairo drawing operations recorded in source order.  Glyph
coverage and text extents belong to the font renderer (spec §1 excludes font
rendering), so a text op records only the string, font size, color and the
vertical offset added to the centered position. -/
inductive DrawOp : Type
  | disk (cx cy radius : ℚ) (color : RGB)
  | arc (cx cy radius : ℚ) (start stop : Angle) (lineWidth : ℚ) (color : RGB)
  | text (s : String) (fontSize : ℚ) (color : RGB) (yOffset : ℚ)
  | panel (x y w h : ℚ) (fill border : RGB)
  | underline (color : RGB)
  deriving DecidableEq, Repr

/-- Modelled from the spec: `rand()` / `srand()` are libc, not part of this
repository.  The spec §4.1 requires only a deterministic, reseedable random
source ("Randomness must be reseedable for deterministic testing; it need not
be cryptographically strong"); we use the C standard's portable example
generator.  The claims depend only on determinism and on the reduction
modulo 628 performed by the source. -/
def rand_next (state : Nat) : Nat × Nat :=
  let s := (state * 1103515245 + 12345) % 2 ^ 31
  (s / 65536 % 32768, s)

/-- Modelled from the spec: seeding the random source fixes its state. -/
def srand (seed : Nat) : Nat := seed

/-- The modulus `(int)(2 * M_PI * 100)` of line 308; the cast truncates
`628.318...` to 628 (`floor_two_pi_hundred` below ties the literal to π). -/
def HIGHLIGHT_MOD : Nat := 628

/-- The truncation `(int)(2 * M_PI * 100)` evaluates to 628. -/
lemma floor_two_pi_hundred : ⌊(2 * Real.pi * 100 : ℝ)⌋ = 628 := by
  have h1 := Real.pi_gt_d6
  have h2 := Real.pi_lt_d6
  rw [Int.floor_eq_iff]
  constructor <;> norm_num <;> nlinarith

/-- Highlight ops, lines 305-341: when `unlock_state` is `STATE_KEY_ACTIVE` or
`STATE_BACKSPACE_ACTIVE`, an arc of span `M_PI / 3` starting at
`(rand() % 628) / 100.0`, colored nord7 for keys and nord11 for backspace,
followed by two nord0 separator ticks of span `M_PI / 128` at either end of
the arc.  The line width is still the 10.0 set at line 220. -/
def highlight_arcs (u : unlock_state_t) (randval : Nat) : List DrawOp :=
  if u = .STATE_KEY_ACTIVE ∨ u = .STATE_BACKSPACE_ACTIVE then
    let highlight_start : ℚ := ((randval % HIGHLIGHT_MOD : Nat) : ℚ) / 100
    let c : RGB := if u = .STATE_KEY_ACTIVE then nord7 else nord11
    [ .arc BUTTON_CENTER BUTTON_CENTER BUTTON_RADIUS
        ⟨highlight_start, 0⟩ ⟨highlight_start, 1/3⟩ 10 c,
      .arc BUTTON_CENTER BUTTON_CENTER BUTTON_RADIUS
        ⟨highlight_start, 0⟩ ⟨highlight_start, 1/128⟩ 10 nord0,
      .arc BUTTON_CENTER BUTTON_CENTER BUTTON_RADIUS
        ⟨highlight_start, 1/3 - 1/128⟩ ⟨highlight_start, 1/3⟩ 10 nord0 ]
  else []

/-- Contents of the indicator buffer (`output` / `ctx`), lines 170-342,
threading the libc PRNG state (consumed only by the highlight branch):
filled disk (nord1), ring stroke (width 10, `ring_color`), inner separator at
`BUTTON_RADIUS - 5` (width 2, nord0), optional status text (24pt,
`text_color`), optional modifier line (14pt, 28 units below center, drawn in
whatever source color the text switch left behind) when
`auth_state == STATE_AUTH_WRONG` and a modifier string is present, then the
highlight arcs. -/
def indicator_ops (unlock_indicator : Bool) (u : unlock_state_t)
    (a : auth_state_t) (sf : Bool) (f : Int) (modifier : Option String)
    (rs : Nat) : List DrawOp × Nat :=
  if indicator_shown unlock_indicator u a then
    let base : List DrawOp :=
      [ .disk BUTTON_CENTER BUTTON_CENTER BUTTON_RADIUS nord1,
        .arc BUTTON_CENTER BUTTON_CENTER BUTTON_RADIUS ⟨0, 0⟩ ⟨0, 2⟩ 10
          (ring_color a u),
        .arc BUTTON_CENTER BUTTON_CENTER (BUTTON_RADIUS - 5) ⟨0, 0⟩ ⟨0, 2⟩ 2
          nord0 ]
    let textOps : List DrawOp :=
      match status_text a u sf f with
      | some s => [.text s 24 (text_color a u sf f) 0]
      | none => []
    let modOps : List DrawOp :=
      if a = .STATE_AUTH_WRONG then
        match modifier with
        | some m => [.text m 14 (text_color a u sf f) 28]
        | none => []
      else []
    if u = .STATE_KEY_ACTIVE ∨ u = .STATE_BACKSPACE_ACTIVE then
      let rv := (rand_next rs).1
      (base ++ textOps ++ modOps ++ highlight_arcs u rv, (rand_next rs).2)
    else
      (base ++ textOps ++ modOps, rs)
  else ([], rs)

/-- Contents of the clock buffer (`clock_output` / `clk_ctx`), lines 344-396:
bordered panel (fill nord0, 2.0-wide nord2 border), large time text (48pt,
nord4), nord7 underline rule under the time, small date text (16pt, nord4).
When `clock_visible` is unset the buffer keeps its creation state. -/
def clock_ops (clock_visible : Bool) (time_text date_text : String) :
    List DrawOp :=
  if clock_visible then
    [ .panel 1 1 ((CLOCK_WIDTH : ℚ) - 2) ((CLOCK_HEIGHT : ℚ) - 2) nord0 nord2,
      .text time_text 48 nord4 0,
      .underline nord7,
      .text date_text 16 nord4 0 ]
  else []

/-- A monitor rectangle as delivered by RandR (`Rect` of `randr.h`): 16-bit
signed position, 16-bit unsigned size. -/
structure Rect : Type where
  x : Int
  y : Int
  width : Nat
  height : Nat
  deriving DecidableEq, Repr

/-- One `cairo_set_source_surface` + `cairo_rectangle` + `cairo_fill` blit of
an offscreen buffer onto the background at an integer position. -/
structure Blit : Type where
  content : List DrawOp
  x : Int
  y : Int
  w : Nat
  h : Nat
  deriving DecidableEq, Repr

/-- Indicator x position for one monitor, line 401:
`rect.x + ((rect.width / 2) - (button_diameter_physical / 2))` with C integer
division. -/
def indicator_x (r : Rect) (d : Nat) : Int :=
  r.x + (((r.width / 2 : Nat) : Int) - ((d / 2 : Nat) : Int))

/-- Indicator y position for one monitor, line 402. -/
def indicator_y (r : Rect) (d : Nat) : Int :=
  r.y + (((r.height / 2 : Nat) : Int) - ((d / 2 : Nat) : Int))

/-- Clock x position for one monitor, line 407:
`rect.x + rect.width - clock_width_physical - margin_physical`. -/
def clock_x (r : Rect) (cw m : Nat) : Int :=
  r.x + (r.width : Int) - (cw : Int) - (m : Int)

/-- Clock y position for one monitor, line 408. -/
def clock_y (r : Rect) (ch m : Nat) : Int :=
  r.y + (r.height : Int) - (ch : Int) - (m : Int)

/-- The two blits performed for one monitor rectangle, lines 401-412. -/
def screen_blits (r : Rect) (ind clk : List DrawOp) (d cw ch m : Nat) :
    List Blit :=
  [ ⟨ind, indicator_x r d, indicator_y r d, d, d⟩,
    ⟨clk, clock_x r cw m, clock_y r ch m, cw, ch⟩ ]

/-- The fallback rectangle used when RandR reports no screens, lines 414-430:
origin (0,0) with the full root-window resolution (`last_resolution`).  (The
source computes `last_resolution[0] / 2 - button_diameter_physical / 2`
directly, which is the indicator rule applied to this rectangle.) -/
def fallback_rect (resolution : Nat × Nat) : Rect :=
  ⟨0, 0, resolution.1, resolution.2⟩

/-- Compositing step, lines 398-430: with screen information, both buffers are
blitted per monitor; otherwise the same two blits target the fallback
rectangle. -/
def composite (screens : List Rect) (resolution : Nat × Nat)
    (ind clk : List DrawOp) (d cw ch m : Nat) : List Blit :=
  if screens.length > 0 then
    screens.flatMap (fun r => screen_blits r ind clk d cw ch m)
  else
    screen_blits (fallback_rect resolution) ind clk d cw ch m

/-- Everything `draw_image` reads: the globals of `i3lock.c` / `xcb.c`
(lines 41-73), the RandR data, the DPI scale `get_dpi_value() / 96.0`, and the
values sampled during the call (wall-clock strings of lines 356-362; the
background color is carried as the RGB triple parsed from the hex `color[7]`
at lines 144-150). -/
structure DrawInputs : Type where
  unlock_indicator : Bool
  clock_visible : Bool
  show_failed_attempts : Bool
  failed_attempts : Int
  unlock_state : unlock_state_t
  auth_state : auth_state_t
  modifier_string : Option String
  bg_color : RGB
  img : Bool
  tile : Bool
  scaling_factor : ℚ
  xr_resolutions : List Rect
  last_resolution : Nat × Nat
  time_text : String
  date_text : String
  deriving DecidableEq, Repr

/-- The produced frame: background fill color, optional image paint
(`some tile`), and the list of buffer blits. -/
structure Frame : Type where
  bg_fill : RGB
  img_painted : Option Bool
  blits : List Blit
  deriving DecidableEq, Repr

/-- The full `draw_image` pipeline (lines 117-438) as a function of its
sampled inputs and the libc PRNG state: clear to the background color, paint
the image (tiled or once), render both offscreen buffers, composite them onto
every monitor.  Returns the frame and the advanced PRNG state. -/
def draw_image (inp : DrawInputs) (rs : Nat) : Frame × Nat :=
  let d := button_diameter_physical inp.scaling_factor
  let cw := clock_width_physical inp.scaling_factor
  let ch := clock_height_physical inp.scaling_factor
  let m := margin_physical inp.scaling_factor
  let indR := indicator_ops inp.unlock_indicator inp.unlock_state
    inp.auth_state inp.show_failed_attempts inp.failed_attempts
    inp.modifier_string rs
  let clk := clock_ops inp.clock_visible inp.time_text inp.date_text
  ({ bg_fill := inp.bg_color,
     img_painted := if inp.img then some inp.tile else none,
     blits := composite inp.xr_resolutions inp.last_resolution indR.1 clk
       d cw ch m },
   indR.2)

/-! ### Pixel semantics of a blit -/

/-- A pixel with premultiplied alpha, the format of `CAIRO_FORMAT_ARGB32`
surfaces; channel values as exact rationals. -/
structure RGBA : Type where
  r : ℚ
  g : ℚ
  b : ℚ
  a : ℚ
  deriving DecidableEq, Repr

/-- A freshly created `CAIRO_FORMAT_ARGB32` image surface is initialized to
all-zero, i.e. fully transparent. -/
def transparent_pixel : RGBA := ⟨0, 0, 0, 0⟩

/-- Cairo's default `OVER` compositing operator on premultiplied-alpha
pixels: `result = source + dest * (1 - source.alpha)`; this is what the
`cairo_fill` of each blit applies (the source never calls
`cairo_set_operator`). -/
def over (src dst : RGBA) : RGBA :=
  ⟨src.r + dst.r * (1 - src.a),
   src.g + dst.g * (1 - src.a),
   src.b + dst.b * (1 - src.a),
   src.a + dst.a * (1 - src.a)⟩

/-- Rasterization of an op list at one pixel position, parameterized by the
per-op semantics `cov` (coverage and blending of disks, arcs and glyphs are
the vector rasterizer's concern, outside this core per spec §1); ops apply in
list order starting from the surface's creation state, which is fully
transparent. -/
def rasterize (cov : DrawOp → ℚ × ℚ → RGBA → RGBA) (ops : List DrawOp)
    (p : ℚ × ℚ) : RGBA :=
  ops.foldl (fun px op => cov op p px) transparent_pixel

/-- Geometry (position and size) of a blit, without its buffer contents. -/
def blit_geom (bl : Blit) : Int × Int × Nat × Nat := (bl.x, bl.y, bl.w, bl.h)

/-! ### The background pixmap cache -/

/-- A background pixmap: XCB id plus the resolution it was created for. -/
structure Pixmap : Type where
  id : Nat
  width : Nat
  height : Nat
  deriving DecidableEq, Repr

/-- The cross-frame mutable state around `redraw_screen`: the cached static
`bg_pixmap` (line 440; `XCB_NONE` is `none`) plus the X server's id
allocator, modelled as a fresh-id counter. -/
structure ServerState : Type where
  bg_pixmap : Option Pixmap
  next_id : Nat
  deriving DecidableEq, Repr

/-- Modelled from the spec: `create_bg_pixmap` lives in `xcb.c`, which is not
under `src/`.  Per the spec (§3 "BackgroundSurface", §8 resolution-change
invalidation) it allocates a new background surface sized to the passed
resolution; the fresh id comes from the server-side counter. -/
def create_bg_pixmap (resolution : Nat × Nat) (s : ServerState) :
    Pixmap × ServerState :=
  (⟨s.next_id, resolution.1, resolution.2⟩, { s with next_id := s.next_id + 1 })

/-- The `free_bg_pixmap` of lines 447-450: releases the pixmap and resets the
static to `XCB_NONE` so the next `redraw_screen` reallocates. -/
def free_bg_pixmap (s : ServerState) : ServerState :=
  { s with bg_pixmap := none }

/-- The cache behavior of `redraw_screen`, lines 456-463: allocate a pixmap
sized to `last_resolution` only when the cached one is `XCB_NONE`, then draw
into it.  Returns the new state and the pixmap drawn into. -/
def redraw_screen (resolution : Nat × Nat) (s : ServerState) :
    ServerState × Pixmap :=
  match s.bg_pixmap with
  | some p => (s, p)
  | none =>
      let pr := create_bg_pixmap resolution s
      ({ pr.2 with bg_pixmap := some pr.1 }, pr.1)

/-! ### Theorems on the pipeline -/

/-- C4: the composition pipeline is deterministic.  The embedding makes every
value the C function consults explicit — the globals it reads, the sampled
wall-clock strings, and the libc PRNG state — so two invocations on equal
inputs seeded with the same seed produce identical frames. -/
theorem draw_image_deterministic (inp₁ inp₂ : DrawInputs) (s₁ s₂ : Nat)
    (hi : inp₁ = inp₂) (hs : s₁ = s₂) :
    (draw_image inp₁ (srand s₁)).1 = (draw_image inp₂ (srand s₂)).1 := by
  rw [hi, hs]

/-- A concrete input tuple used by the witnesses. -/
def sample_inputs : DrawInputs :=
  { unlock_indicator := true
    clock_visible := true
    show_failed_attempts := true
    failed_attempts := 2
    unlock_state := .STATE_KEY_ACTIVE
    auth_state := .STATE_AUTH_IDLE
    modifier_string := none
    bg_color := nord0
    img := false
    tile := false
    scaling_factor := 1
    xr_resolutions := [⟨0, 0, 1920, 1080⟩]
    last_resolution := (1920, 1080)
    time_text := "12:34"
    date_text := "Sat, October 11" }

/-- Witness for `draw_image_deterministic` on `sample_inputs` with seed 7. -/
theorem draw_image_deterministic_witness :
    sample_inputs = sample_inputs ∧ (7 : Nat) = 7 ∧
      (draw_image sample_inputs (srand 7)).1 =
        (draw_image sample_inputs (srand 7)).1 :=
  ⟨rfl, rfl, draw_image_deterministic sample_inputs sample_inputs 7 7 rfl rfl⟩

/-- C6: for `KeyActive`/`BackspaceActive` the highlight is an arc of span
exactly `π/3` (60°), starting at an angle in `[0, 2π)` for every PRNG value,
green (nord7) for keys and red (nord11) for backspace, with a thin nord0
separator tick of span `π/128` at each end; and these ops are rendered (a
suffix of the indicator buffer ops) whenever the indicator is enabled. -/
theorem highlight_arc_geometry (u : unlock_state_t) (rv : Nat)
    (hu : u = .STATE_KEY_ACTIVE ∨ u = .STATE_BACKSPACE_ACTIVE) :
    ∃ start : ℚ,
      highlight_arcs u rv =
        [ .arc BUTTON_CENTER BUTTON_CENTER BUTTON_RADIUS ⟨start, 0⟩
            ⟨start, 1/3⟩ 10
            (if u = .STATE_KEY_ACTIVE then nord7 else nord11),
          .arc BUTTON_CENTER BUTTON_CENTER BUTTON_RADIUS ⟨start, 0⟩
            ⟨start, 1/128⟩ 10 nord0,
          .arc BUTTON_CENTER BUTTON_CENTER BUTTON_RADIUS
            ⟨start, 1/3 - 1/128⟩ ⟨start, 1/3⟩ 10 nord0 ] ∧
      0 ≤ Angle.toReal ⟨start, 0⟩ ∧
      Angle.toReal ⟨start, 0⟩ < 2 * Real.pi ∧
      Angle.toReal ⟨start, 1/3⟩ - Angle.toReal ⟨start, 0⟩ = Real.pi / 3 ∧
      Real.pi / 3 * (180 / Real.pi) = 60 ∧
      ∀ (a : auth_state_t) (sf : Bool) (f : Int) (ml : Option String)
        (rs : Nat),
        List.IsSuffix (highlight_arcs u (rand_next rs).1)
          (indicator_ops true u a sf f ml rs).1 := by
  have hmod : (rv % HIGHLIGHT_MOD : Nat) < 628 :=
    Nat.mod_lt _ (by norm_num [HIGHLIGHT_MOD])
  have hcast : ((rv % HIGHLIGHT_MOD : Nat) : ℝ) ≤ 627 := by
    exact_mod_cast Nat.le_of_lt_succ hmod
  have hpi := Real.pi_gt_d6
  refine ⟨((rv % HIGHLIGHT_MOD : Nat) : ℚ) / 100, ?_, ?_, ?_, ?_, ?_, ?_⟩
  · rcases hu with rfl | rfl <;> rfl
  · simp only [Angle.toReal]
    push_cast
    positivity
  · simp only [Angle.toReal]
    push_cast
    nlinarith
  · simp only [Angle.toReal]
    push_cast
    ring
  · field_simp
    ring
  · intro a sf f ml rs
    rcases hu with rfl | rfl <;> exact List.suffix_append _ _

/-- Witness for `highlight_arc_geometry` at `KeyActive`, PRNG value 0. -/
theorem highlight_arc_geometry_witness :
    (unlock_state_t.STATE_KEY_ACTIVE = unlock_state_t.STATE_KEY_ACTIVE ∨
      unlock_state_t.STATE_KEY_ACTIVE =
        unlock_state_t.STATE_BACKSPACE_ACTIVE) ∧
    ∃ start : ℚ,
      highlight_arcs .STATE_KEY_ACTIVE 0 =
        [ .arc BUTTON_CENTER BUTTON_CENTER BUTTON_RADIUS ⟨start, 0⟩
            ⟨start, 1/3⟩ 10
            (if unlock_state_t.STATE_KEY_ACTIVE =
                unlock_state_t.STATE_KEY_ACTIVE then nord7 else nord11),
          .arc BUTTON_CENTER BUTTON_CENTER BUTTON_RADIUS ⟨start, 0⟩
            ⟨start, 1/128⟩ 10 nord0,
          .arc BUTTON_CENTER BUTTON_CENTER BUTTON_RADIUS
            ⟨start, 1/3 - 1/128⟩ ⟨start, 1/3⟩ 10 nord0 ] ∧
      0 ≤ Angle.toReal ⟨start, 0⟩ ∧
      Angle.toReal ⟨start, 0⟩ < 2 * Real.pi ∧
      Angle.toReal ⟨start, 1/3⟩ - Angle.toReal ⟨start, 0⟩ = Real.pi / 3 ∧
      Real.pi / 3 * (180 / Real.pi) = 60 ∧
      ∀ (a : auth_state_t) (sf : Bool) (f : Int) (ml : Option String)
        (rs : Nat),
        List.IsSuffix (highlight_arcs .STATE_KEY_ACTIVE (rand_next rs).1)
          (indicator_ops true .STATE_KEY_ACTIVE a sf f ml rs).1 :=
  ⟨Or.inl rfl, highlight_arc_geometry .STATE_KEY_ACTIVE 0 (Or.inl rfl)⟩

/-- Helper: halving a natural with integer division loses between 0 and 1/2. -/
lemma nat_half_gap (n : Nat) :
    (0 : ℚ) ≤ (n : ℚ) / 2 - ((n / 2 : Nat) : ℚ) ∧
      (n : ℚ) / 2 - ((n / 2 : Nat) : ℚ) ≤ 1 / 2 := by
  have h : 2 * (n / 2) + n % 2 = n := Nat.div_add_mod n 2
  have h2 : 2 * ((n / 2 : Nat) : ℚ) + ((n % 2 : Nat) : ℚ) = (n : ℚ) := by
    exact_mod_cast h
  have h3 : ((n % 2 : Nat) : ℚ) ≤ 1 := by
    exact_mod_cast Nat.le_of_lt_succ (Nat.mod_lt n (by norm_num))
  have h4 : (0 : ℚ) ≤ ((n % 2 : Nat) : ℚ) := by positivity
  constructor <;> linarith

/-- C7: (a) the indicator buffer's center lands within 1 px of each monitor
rectangle's geometric center; (b) the clock buffer's bottom-right corner is
inset by exactly the physical margin from the rectangle's bottom-right
corner; (c) an empty monitor list falls back to a single rectangle covering
the full reported resolution, under the same two placement rules; (d) the
pipeline's blits are exactly these per-rectangle blits. -/
theorem monitor_placement :
    (∀ (r : Rect) (d : Nat),
      |(((indicator_x r d : Int) : ℚ) + (d : ℚ) / 2) -
          ((r.x : ℚ) + (r.width : ℚ) / 2)| ≤ 1 ∧
      |(((indicator_y r d : Int) : ℚ) + (d : ℚ) / 2) -
          ((r.y : ℚ) + (r.height : ℚ) / 2)| ≤ 1) ∧
    (∀ (r : Rect) (cw ch m : Nat),
      clock_x r cw m + (cw : Int) = r.x + (r.width : Int) - (m : Int) ∧
      clock_y r ch m + (ch : Int) = r.y + (r.height : Int) - (m : Int)) ∧
    (∀ (resolution : Nat × Nat) (ind clk : List DrawOp) (d cw ch m : Nat),
      composite [] resolution ind clk d cw ch m =
        screen_blits (fallback_rect resolution) ind clk d cw ch m) ∧
    (∀ (inp : DrawInputs) (rs : Nat),
      (draw_image inp rs).1.blits =
        composite inp.xr_resolutions inp.last_resolution
          (indicator_ops inp.unlock_indicator inp.unlock_state inp.auth_state
            inp.show_failed_attempts inp.failed_attempts inp.modifier_string
            rs).1
          (clock_ops inp.clock_visible inp.time_text inp.date_text)
          (button_diameter_physical inp.scaling_factor)
          (clock_width_physical inp.scaling_factor)
          (clock_height_physical inp.scaling_factor)
          (margin_physical inp.scaling_factor)) := by
  refine ⟨fun r d => ⟨?_, ?_⟩, fun r cw ch m => ⟨?_, ?_⟩,
    fun resolution ind clk d cw ch m => rfl, fun inp rs => rfl⟩
  · have g1 := nat_half_gap r.width
    have g2 := nat_half_gap d
    simp only [indicator_x, Int.cast_add, Int.cast_sub, Int.cast_natCast]
    rw [abs_le]
    constructor <;> linarith [g1.1, g1.2, g2.1, g2.2]
  · have g1 := nat_half_gap r.height
    have g2 := nat_half_gap d
    simp only [indicator_y, Int.cast_add, Int.cast_sub, Int.cast_natCast]
    rw [abs_le]
    constructor <;> linarith [g1.1, g1.2, g2.1, g2.2]
  · simp only [clock_x]
    ring
  · simp only [clock_y]
    ring

/-- Helper: two blits per monitor rectangle. -/
lemma flatMap_screen_blits_length (screens : List Rect)
    (ind clk : List DrawOp) (d cw ch m : Nat) :
    (screens.flatMap fun r => screen_blits r ind clk d cw ch m).length =
      2 * screens.length := by
  induction screens with
  | nil => rfl
  | cons hd tl ih =>
      rw [List.flatMap_cons, List.length_append, ih]
      simp only [screen_blits, List.length_cons, List.length_nil]
      omega

/-- Helper: blit geometry does not depend on the buffer contents. -/
lemma composite_geom_indep (screens : List Rect) (resolution : Nat × Nat)
    (ind ind' clk clk' : List DrawOp) (d cw ch m : Nat) :
    (composite screens resolution ind clk d cw ch m).map blit_geom =
      (composite screens resolution ind' clk' d cw ch m).map blit_geom := by
  unfold composite
  split
  · rw [List.map_flatMap, List.map_flatMap]
    congr 1
  · rfl

/-- C10: the enable flags gate only buffer contents, not compositing:
the pipeline emits the same blit geometry whatever the flags, always two
blits per monitor rectangle (or per the single fallback rectangle); a
disabled indicator or clock leaves the corresponding buffer's op list empty;
and blitting a buffer whose op list is empty — i.e. a fully transparent
buffer — with the `OVER` operator leaves every destination pixel unchanged. -/
theorem blit_unconditional (inp : DrawInputs) (rs : Nat) :
    ((draw_image inp rs).1.blits.map blit_geom =
      ((draw_image
        { inp with unlock_indicator := true, clock_visible := true }
        rs).1.blits.map blit_geom)) ∧
    (draw_image inp rs).1.blits.length =
      2 * max 1 inp.xr_resolutions.length ∧
    (inp.unlock_indicator = false →
      (indicator_ops inp.unlock_indicator inp.unlock_state inp.auth_state
        inp.show_failed_attempts inp.failed_attempts inp.modifier_string
        rs).1 = []) ∧
    (inp.clock_visible = false →
      clock_ops inp.clock_visible inp.time_text inp.date_text = []) ∧
    (∀ (cov : DrawOp → ℚ × ℚ → RGBA → RGBA) (p : ℚ × ℚ) (dst : RGBA),
      over (rasterize cov [] p) dst = dst) := by
  refine ⟨?_, ?_, fun hoff => ?_, fun hoff => ?_, fun cov p dst => ?_⟩
  · exact composite_geom_indep inp.xr_resolutions inp.last_resolution _ _ _ _
      _ _ _ _
  · show (composite inp.xr_resolutions inp.last_resolution _ _ _ _ _ _).length
      = _
    unfold composite
    split
    · rw [flatMap_screen_blits_length]
      omega
    · simp only [screen_blits, List.length_cons, List.length_nil]
      omega
  · simp [indicator_ops, indicator_shown, hoff]
  · simp [clock_ops, hoff]
  · simp [over, rasterize, transparent_pixel]

/-- Witness for `blit_unconditional`: both features disabled on a concrete
input. -/
theorem blit_unconditional_witness :
    ({ sample_inputs with unlock_indicator := false, clock_visible := false
        : DrawInputs }.unlock_indicator = false →
      (indicator_ops false .STATE_KEY_ACTIVE .STATE_AUTH_IDLE true 2 none
        0).1 = []) ∧
    ({ sample_inputs with unlock_indicator := false, clock_visible := false
        : DrawInputs }.clock_visible = false →
      clock_ops false "12:34" "Sat, October 11" = []) :=
  ⟨(blit_unconditional
      { sample_inputs with unlock_indicator := false, clock_visible := false }
      0).2.2.1,
   (blit_unconditional
      { sample_inputs with unlock_indicator := false, clock_visible := false }
      0).2.2.2.1⟩

/-- C8: the background surface is cached: a redraw with a cached pixmap
reuses exactly that pixmap and leaves the state unchanged (so any number of
redraws keep reusing the same instance); after `free_bg_pixmap`, the next
redraw allocates a brand-new pixmap (a fresh id, distinct from the old one)
sized to the current resolution, and caches it. -/
theorem bg_pixmap_cache_policy (s : ServerState) (p : Pixmap)
    (res res₂ : Nat × Nat) (hs : s.bg_pixmap = some p)
    (hid : p.id < s.next_id) :
    redraw_screen res s = (s, p) ∧
    redraw_screen res₂ (redraw_screen res s).1 = (s, p) ∧
    (redraw_screen res (free_bg_pixmap s)).2 =
      ⟨s.next_id, res.1, res.2⟩ ∧
    (redraw_screen res (free_bg_pixmap s)).2.id ≠ p.id ∧
    (redraw_screen res (free_bg_pixmap s)).1.bg_pixmap =
      some ⟨s.next_id, res.1, res.2⟩ := by
  refine ⟨?_, ?_, ?_, ?_, ?_⟩ <;>
    simp [redraw_screen, free_bg_pixmap, create_bg_pixmap, hs]
  omega

/-- Witness for `bg_pixmap_cache_policy` on a concrete cached state. -/
theorem bg_pixmap_cache_policy_witness :
    (ServerState.mk (some ⟨0, 800, 600⟩) 1).bg_pixmap =
        some (⟨0, 800, 600⟩ : Pixmap) ∧
    (0 : Nat) < 1 ∧
    (redraw_screen (1024, 768) ⟨some ⟨0, 800, 600⟩, 1⟩ =
        (⟨some ⟨0, 800, 600⟩, 1⟩, ⟨0, 800, 600⟩) ∧
      redraw_screen (800, 600)
          (redraw_screen (1024, 768) ⟨some ⟨0, 800, 600⟩, 1⟩).1 =
        (⟨some ⟨0, 800, 600⟩, 1⟩, ⟨0, 800, 600⟩) ∧
      (redraw_screen (1024, 768)
          (free_bg_pixmap ⟨some ⟨0, 800, 600⟩, 1⟩)).2 = ⟨1, 1024, 768⟩ ∧
      (redraw_screen (1024, 768)
          (free_bg_pixmap ⟨some ⟨0, 800, 600⟩, 1⟩)).2.id ≠
        (⟨0, 800, 600⟩ : Pixmap).id ∧
      (redraw_screen (1024, 768)
          (free_bg_pixmap ⟨some ⟨0, 800, 600⟩, 1⟩)).1.bg_pixmap =
        some ⟨1, 1024, 768⟩) :=
  ⟨rfl, by decide,
    bg_pixmap_cache_policy ⟨some ⟨0, 800, 600⟩, 1⟩ ⟨0, 800, 600⟩
      (1024, 768) (800, 600) rfl (by decide)⟩

end I3lock
